import Mathlib

/-!
Verification development for the fast-context repository, an implementation
of the Context Protocol for Web Components with FASTElement.

The embedding is shallow. Identities that the source compares with
reference equality (context keys, callback functions, unsubscribe/dispose
functions, DOM elements) are modelled as natural-number tokens, since the
source only ever compares them by identity. Event dispatch through the DOM
is modelled as an explicit innermost-first walk over the ancestor chain of
providers, following the design note of the spec that sanctions replacing
event bubbling by an explicit ancestor-chain walker with first-claim
semantics.
-/

/-- Identity token of a consumer delivery-callback function. -/
abbrev CallbackId := Nat

/-- Identity token of an unsubscribe / dispose function handed out by a provider. -/
abbrev UnsubId := Nat

/-- Identity token of a DOM element. -/
abbrev ElemId := Nat

/-- Identity token of a context key (createContext keys compare by identity). -/
abbrev CtxId := Nat

/-- Context payload values (the tests use numbers). -/
abbrev Value := Int

/-- The context-request event: context key, delivery callback, subscribe flag,
and the originating element, modelling composedPath()[0] of the dispatched
event (the deepest entry of the event path). -/
structure ContextRequestEvent where
  context : CtxId
  callback : CallbackId
  subscribe : Bool
  origin : ElemId
deriving DecidableEq, Repr

/-- The context-provider announcement event: context key and the announcing
element, modelling composedPath()[0]. -/
structure ContextProviderEvent where
  context : CtxId
  origin : ElemId
deriving DecidableEq, Repr

/-- One delivery performed by a provider: which callback was invoked, with
which value, and which unsubscribe handle (none when no handle was passed). -/
structure Delivery where
  callback : CallbackId
  value : Option Value
  unsub : Option UnsubId
deriving DecidableEq, Repr

/-- One entry of the subscription registry of a Value Notifier: the callback
identity, the consumer host element it was registered from, and the identity
of the dispose function created for this registration. -/
structure Subscription where
  callback : CallbackId
  consumerHost : ElemId
  disposer : UnsubId
deriving DecidableEq, Repr

/-- Modelled from the spec: ValueNotifier (the file value-notifier.ts is not
under src, only its callers and tests are). Per-provider registry of active
subscriptions plus change-broadcast logic. The value is optional because the
initial value of a provider is optional. nextDisposer is a fresh-identity
source for dispose functions, whose identity must stay stable for the life
of one subscription registration. -/
structure ValueNotifier where
  value : Option Value
  subscriptions : List Subscription
  nextDisposer : UnsubId
deriving DecidableEq, Repr

/-- Modelled from the spec: registration entry point of the Value Notifier,
called by the provider with the triple carried by a context-request event.
Per the overview, the provider retains the callback (and hands it an
unsubscribe handle) only when subscribe was requested; in every case the
callback is invoked once immediately with the current value. Re-registering
an already present callback is idempotent and reuses the existing dispose
identity. -/
def ValueNotifier.addCallback (n : ValueNotifier) (cb : CallbackId)
    (host : ElemId) (subscribe : Bool) : ValueNotifier × Delivery :=
  if subscribe then
    match n.subscriptions.find? (fun sub => sub.callback == cb) with
    | some sub => (n, ⟨cb, n.value, some sub.disposer⟩)
    | none =>
      let d := n.nextDisposer
      ({ n with
          subscriptions := n.subscriptions ++ [⟨cb, host, d⟩],
          nextDisposer := d + 1 },
        ⟨cb, n.value, some d⟩)
  else
    (n, ⟨cb, n.value, none⟩)

/-- Modelled from the spec: setValue updates the stored value and broadcasts
to every active subscription, passing each subscription its own stable
dispose handle. -/
def ValueNotifier.setValue (n : ValueNotifier) (v : Value) :
    ValueNotifier × List Delivery :=
  let n1 := { n with value := some v }
  (n1, n1.subscriptions.map (fun sub => ⟨sub.callback, some v, some sub.disposer⟩))

/-- Modelled from the spec: the effect of invoking the dispose handle of a
subscription, which removes its entry from the registry. -/
def ValueNotifier.dispose (n : ValueNotifier) (d : UnsubId) : ValueNotifier :=
  { n with subscriptions := n.subscriptions.filter (fun sub => sub.disposer != d) }

/-- Repeated setValue calls, collecting every broadcast delivery in order. -/
def ValueNotifier.setValues : ValueNotifier → List Value → ValueNotifier × List Delivery
  | n, [] => (n, [])
  | n, v :: vs =>
    let r1 := n.setValue v
    let r2 := ValueNotifier.setValues r1.1 vs
    (r2.1, r1.2 ++ r2.2)

/-- State of a ContextConsumer behavior (context-consumer.ts). host is the
element the behavior is bound to; cbId is the identity of the stable
delivery callback created once per instance; hasUserCallback records whether
an optional user callback was supplied. -/
structure ConsumerState where
  host : ElemId
  context : CtxId
  cbId : CallbackId
  subscribe : Bool
  hasUserCallback : Bool
  value : Option Value
  provided : Bool
  unsubscribe : Option UnsubId
deriving DecidableEq, Repr

namespace ContextConsumer

/-- A fresh consumer as built by the constructor from its options. -/
def mk (host : ElemId) (context : CtxId) (cbId : CallbackId)
    (subscribe : Bool) (hasUserCallback : Bool) : ConsumerState :=
  ⟨host, context, cbId, subscribe, hasUserCallback, none, false, none⟩

/-- The context-request event emitted by dispatchRequest: dispatched at the
host element, carrying the stable callback identity and the subscribe flag. -/
def dispatchRequest (s : ConsumerState) : ContextRequestEvent :=
  ⟨s.context, s.cbId, s.subscribe, s.host⟩

/-- hostDisconnected: if an unsubscribe handle is held, invoke it and clear
it. Returns the new state and the list of unsubscribe handles invoked. -/
def hostDisconnected (s : ConsumerState) : ConsumerState × List UnsubId :=
  match s.unsubscribe with
  | some u => ({ s with unsubscribe := none }, [u])
  | none => (s, [])

/-- The delivery callback of the consumer (the private stable callback field
of context-consumer.ts), as a pure step: given the delivered value and the
delivered unsubscribe handle, returns the new state, the list of unsubscribe
handles the consumer invoked during the delivery (in invocation order), and
whether the user-supplied callback was invoked. The whole teardown block is
guarded on an unsubscribe handle already being held; inside it, a held handle
differing from the delivered one marks a provider hand-off (clear provided,
invoke the old handle), and a non-subscribing consumer additionally invokes
the currently held (old) handle. The delivered value is always stored, the
user callback fires when not provided or subscribed, and the delivered handle
is stored last. -/
def deliveryCallback (s : ConsumerState) (v : Option Value) (u : Option UnsubId) :
    ConsumerState × List UnsubId × Bool :=
  let step1 : Bool × List UnsubId :=
    match s.unsubscribe with
    | none => (s.provided, [])
    | some old =>
      let handoff : Bool × List UnsubId :=
        if u = some old then (s.provided, []) else (false, [old])
      if s.subscribe then handoff else (handoff.1, handoff.2 ++ [old])
  let provided1 := step1.1
  let branch := (!provided1) || s.subscribe
  let provided2 := if branch then true else provided1
  ({ s with value := v, provided := provided2, unsubscribe := u },
    step1.2, branch && s.hasUserCallback)

end ContextConsumer

/-- State of a ContextProvider behavior (the HTMLElement variant of
context-provider.ts, part of the unnamed sources): host element, context
key, and the Value Notifier it extends. -/
structure ProviderState where
  host : ElemId
  context : CtxId
  notifier : ValueNotifier
deriving DecidableEq, Repr

namespace ContextProvider

/-- The onContextRequest handler: if the context key differs or the
originating element of the event is the own host, do nothing and let the
event keep propagating; otherwise stop propagation and register the triple
with the Value Notifier. Returns the new provider state, whether propagation
was stopped, and the deliveries performed. -/
def onContextRequest (p : ProviderState) (ev : ContextRequestEvent) :
    ProviderState × Bool × List Delivery :=
  if ev.context ≠ p.context ∨ ev.origin = p.host then
    (p, false, [])
  else
    let r := p.notifier.addCallback ev.callback ev.origin ev.subscribe
    ({ p with notifier := r.1 }, true, [r.2])

/-- The re-parenting loop inside onProviderRequest: iterate the subscription
entries, skip a callback already seen in this pass, and for each unique
callback dispatch a fresh context-request event with subscribe true from the
stored consumer host of its first entry. -/
def reparentLoop (ctx : CtxId) :
    List Subscription → List CallbackId → List ContextRequestEvent
  | [], _ => []
  | sub :: rest, seen =>
    if sub.callback ∈ seen then
      reparentLoop ctx rest seen
    else
      ⟨ctx, sub.callback, true, sub.consumerHost⟩ ::
        reparentLoop ctx rest (sub.callback :: seen)

/-- The onProviderRequest handler: on a provider-announcement event, if the
context differs or the announcing element is the own host, ignore it and let
it keep propagating; otherwise run the deduplicating re-parenting loop over
the subscription registry and stop propagation. Returns whether propagation
was stopped and the context-request events dispatched (in order). -/
def onProviderRequest (p : ProviderState) (ev : ContextProviderEvent) :
    Bool × List ContextRequestEvent :=
  if ev.context ≠ p.context ∨ ev.origin = p.host then
    (false, [])
  else
    (true, reparentLoop p.context p.notifier.subscriptions [])

end ContextProvider

/-- Innermost-first dispatch of a context-request event along the ancestor
chain of providers (listeners of nearer elements run first; the event fires
at the target itself first, where a provider on the originating element will
ignore it by the self-service check). The walk stops at the first provider
that stops propagation. Returns the updated chain and, when some provider
claimed the event, its host together with the deliveries it performed. -/
def dispatchContextRequest (provs : List ProviderState) (ev : ContextRequestEvent) :
    List ProviderState × Option (ElemId × List Delivery) :=
  match provs with
  | [] => ([], none)
  | p :: rest =>
    let r := ContextProvider.onContextRequest p ev
    if r.2.1 then
      (r.1 :: rest, some (r.1.host, r.2.2))
    else
      let r2 := dispatchContextRequest rest ev
      (r.1 :: r2.1, r2.2)

/-- Route a list of deliveries into one consumer: each delivery addressed to
the stable callback identity of the consumer is run through its delivery
callback; other deliveries leave it untouched. Also collects the unsubscribe
handles the consumer invoked. -/
def applyDeliveriesTo (s : ConsumerState) (ds : List Delivery) :
    ConsumerState × List UnsubId :=
  ds.foldl
    (fun acc d =>
      if d.callback = acc.1.cbId then
        let r := ContextConsumer.deliveryCallback acc.1 d.value d.unsub
        (r.1, acc.2 ++ r.2.1)
      else acc)
    (s, [])

/-- One operation of a consumer lifetime: host connect (which dispatches a
request), host disconnect, or a delivery arriving from some provider. -/
inductive ConsumerOp where
  | connect
  | disconnect
  | deliver (v : Option Value) (u : Option UnsubId)
deriving DecidableEq, Repr

/-- Trace result of running a consumer: final state, the request events it
emitted, the unsubscribe handles it invoked, one flag per delivery telling
whether the user callback fired, and the number of hand-off deliveries
(deliveries arriving with a held handle differing from the delivered one). -/
structure ConsumerRun where
  state : ConsumerState
  requests : List ContextRequestEvent
  invoked : List UnsubId
  callFlags : List Bool
  handoffs : Nat
deriving DecidableEq, Repr

/-- Run a consumer through a list of lifetime operations. -/
def runConsumer (s : ConsumerState) : List ConsumerOp → ConsumerRun
  | [] => ⟨s, [], [], [], 0⟩
  | ConsumerOp.connect :: rest =>
    let r := runConsumer s rest
    { r with requests := ContextConsumer.dispatchRequest s :: r.requests }
  | ConsumerOp.disconnect :: rest =>
    let d := ContextConsumer.hostDisconnected s
    let r := runConsumer d.1 rest
    { r with invoked := d.2 ++ r.invoked }
  | ConsumerOp.deliver v u :: rest =>
    let ho : Nat := if s.unsubscribe.isSome ∧ u ≠ s.unsubscribe then 1 else 0
    let c := ContextConsumer.deliveryCallback s v u
    let r := runConsumer c.1 rest
    { r with
        invoked := c.2.1 ++ r.invoked,
        callFlags := c.2.2 :: r.callFlags,
        handoffs := ho + r.handoffs }

/-- State of the FASTElement-behavior variant of ContextProvider (the file
controllers/context-provider.ts under src): the listener flags record
whether the context-request and context-provider listeners attached by bind
via attachListeners are currently installed on the host element. -/
structure FastProviderState where
  host : ElemId
  context : CtxId
  notifier : ValueNotifier
  requestListener : Bool
  providerListener : Bool
deriving DecidableEq, Repr

instance : Inhabited ProviderState := ⟨⟨0, 0, ⟨none, [], 0⟩⟩⟩

namespace ContextProviderFast

/-- bind: store the host, attach both listeners, then hostConnected, which
dispatches one provider-announcement event at the host. -/
def bind (s : FastProviderState) : FastProviderState × List ContextProviderEvent :=
  ({ s with requestListener := true, providerListener := true },
    [⟨s.context, s.host⟩])

/-- unbind of the FASTElement variant: the body of the method is empty, so
the state is returned unchanged; in particular no listener is removed and
the subscription registry is retained. -/
def unbind (s : FastProviderState) : FastProviderState := s

/-- Handling of a context-request event arriving at the host: the handler
only runs while the context-request listener is installed, and then behaves
as onContextRequest of the provider. -/
def handleContextRequest (s : FastProviderState) (ev : ContextRequestEvent) :
    FastProviderState × Bool × List Delivery :=
  if s.requestListener then
    if ev.context ≠ s.context ∨ ev.origin = s.host then
      (s, false, [])
    else
      let r := s.notifier.addCallback ev.callback ev.origin ev.subscribe
      ({ s with notifier := r.1 }, true, [r.2])
  else
    (s, false, [])

/-- Handling of a provider-announcement event arriving at the host: the
handler only runs while the context-provider listener is installed, and then
behaves as onProviderRequest of the provider. -/
def handleProviderRequest (s : FastProviderState) (ev : ContextProviderEvent) :
    Bool × List ContextRequestEvent :=
  if s.providerListener then
    if ev.context ≠ s.context ∨ ev.origin = s.host then
      (false, [])
    else
      (true, ContextProvider.reparentLoop s.context s.notifier.subscriptions [])
  else
    (false, [])

end ContextProviderFast

/-- The provider of the scenario in the tests: it holds value 1000 for
context key 0 on host element 0. -/
def scenarioProvider : ProviderState :=
  ⟨0, 0, ⟨some 1000, [], 0⟩⟩

/-- The subscribed consumer of the scenario, on host element 1 with stable
callback identity 10. -/
def scenarioCs : ConsumerState :=
  ContextConsumer.mk 1 0 10 true true

/-- The one-shot consumer of the scenario, on host element 2 with stable
callback identity 20. -/
def scenarioCo : ConsumerState :=
  ContextConsumer.mk 2 0 20 false true

/-- Extract the deliveries of a claimed dispatch (empty when unclaimed). -/
def claimedDeliveries (r : List ProviderState × Option (ElemId × List Delivery)) :
    List Delivery :=
  match r.2 with
  | none => []
  | some c => c.2

/-- Run the test scenario: mount the subscribed consumer, then the one-shot
consumer, under the provider; then setValue 500 on the provider and route
the broadcast deliveries. Returns the provider state and both consumer
states after mounting and the two consumer states after the setValue. -/
def scenarioC4Run :
    (ProviderState × ConsumerState × ConsumerState) × (ConsumerState × ConsumerState) :=
  let m1 := dispatchContextRequest [scenarioProvider] (ContextConsumer.dispatchRequest scenarioCs)
  let p1 := m1.1.headI
  let cs1 := (applyDeliveriesTo scenarioCs (claimedDeliveries m1)).1
  let m2 := dispatchContextRequest [p1] (ContextConsumer.dispatchRequest scenarioCo)
  let p2 := m2.1.headI
  let co1 := (applyDeliveriesTo scenarioCo (claimedDeliveries m2)).1
  let sv := p2.notifier.setValue 500
  let p3 := { p2 with notifier := sv.1 }
  let rcs := applyDeliveriesTo cs1 sv.2
  let rco := applyDeliveriesTo co1 sv.2
  let p4 := { p3 with notifier := (rcs.2 ++ rco.2).foldl ValueNotifier.dispose p3.notifier }
  ((p4, cs1, co1), (rcs.1, rco.1))

/-- A fresh one-shot consumer used to exercise the delivery callback. -/
def oneShotFresh : ConsumerState :=
  ContextConsumer.mk 3 0 30 false true

/-- A provider whose registry transiently holds the same callback under two
entries (as happens when one host element provides the same context twice),
used to exercise the deduplicating re-parenting pass. -/
def dupSubsProvider : ProviderState :=
  ⟨5, 7, ⟨some 42, [⟨10, 1, 0⟩, ⟨10, 1, 1⟩, ⟨20, 2, 2⟩], 3⟩⟩

/-- A provider-announcement event from a child provider on element 9 for the
same context as dupSubsProvider. -/
def dupSubsAnnounce : ContextProviderEvent := ⟨7, 9⟩

/-- The nearer of two nested providers for context 4: on element 11, holding
value 100. -/
def nearProvider : ProviderState := ⟨11, 4, ⟨some 100, [], 0⟩⟩

/-- The outer of two nested providers for context 4: on element 12, holding
value 200. -/
def farProvider : ProviderState := ⟨12, 4, ⟨some 200, [], 0⟩⟩

/-- A request for context 4 dispatched from element 13, a descendant of both
nested providers. -/
def nestedRequest : ContextRequestEvent := ⟨4, 50, true, 13⟩

/-- A subscribed consumer currently holding unsubscribe handle 7, used to
exercise the disconnect and reconnect round trip. -/
def roundTripConsumer : ConsumerState :=
  { ContextConsumer.mk 1 0 70 true true with
      value := some 3, provided := true, unsubscribe := some 7 }

/-- setValue leaves the subscription registry unchanged. -/
theorem setValue_keeps_subscriptions (n : ValueNotifier) (v : Value) :
    (n.setValue v).1.subscriptions = n.subscriptions := rfl

/-- A callback with no entry in the registry receives no delivery from any
sequence of setValue calls. -/
theorem setValues_avoid_callback (cb : CallbackId) (vs : List Value) :
    ∀ n : ValueNotifier,
      n.subscriptions.all (fun sub => sub.callback != cb) = true →
      ((ValueNotifier.setValues n vs).2.all (fun d => d.callback != cb)) = true := by
  induction vs with
  | nil =>
    intro n h
    rfl
  | cons v vs ih =>
    intro n h
    have hsub : ((n.setValue v).1).subscriptions = n.subscriptions :=
      setValue_keeps_subscriptions n v
    have h2 := ih (n.setValue v).1 (by rw [hsub]; exact h)
    simp only [ValueNotifier.setValues, List.all_append, Bool.and_eq_true]
    refine ⟨?_, h2⟩
    simp only [ValueNotifier.setValue, List.all_map]
    simpa using h

/-- Claim C4: with the provider holding 1000 and a subscribed consumer and a
one-shot consumer mounted as descendants, both consumers read 1000; after
setValue 500 the subscribed consumer reads 500 while the one-shot consumer
still reads 1000; moreover the one-shot callback receives no delivery from
any further sequence of setValue calls on the provider. -/
theorem claimC4_oneShot_scenario :
    (scenarioC4Run.1.2.1.value = some 1000 ∧
      scenarioC4Run.1.2.2.value = some 1000 ∧
      scenarioC4Run.2.1.value = some 500 ∧
      scenarioC4Run.2.2.value = some 1000) ∧
    ∀ vs : List Value,
      ((ValueNotifier.setValues scenarioC4Run.1.1.notifier vs).2.all
        (fun d => d.callback != 20)) = true := by
  constructor
  · decide
  · intro vs
    exact setValues_avoid_callback 20 vs scenarioC4Run.1.1.notifier (by decide)

/-- Claim C3 counterexample: a first delivery with an unsubscribe handle to a
fresh one-shot consumer invokes no unsubscribe handle at all (in particular
not the newly received one), and the received handle is stored and held past
the delivery. -/
theorem claimC3_counterexample :
    oneShotFresh.subscribe = false ∧
    (ContextConsumer.deliveryCallback oneShotFresh (some 1) (some 5)).2.1 = [] ∧
    (ContextConsumer.deliveryCallback oneShotFresh (some 1) (some 5)).1.unsubscribe
      = some 5 := by
  decide

/-- Claim C3 amended: in the delivery callback of a non-subscribing consumer,
unsubscribe invocations happen only when a handle was already held from a
previous delivery: a first delivery invokes nothing, a repeat delivery with
the same handle invokes that held handle once, and a hand-off delivery
invokes the old held handle twice; in every case the newly received handle is
stored afterwards. -/
theorem claimC3_oneShot_unsubscribe (s : ConsumerState) (v : Option Value)
    (u : Option UnsubId) (h : s.subscribe = false) :
    (ContextConsumer.deliveryCallback s v u).1.unsubscribe = u ∧
    (ContextConsumer.deliveryCallback s v u).2.1 =
      (match s.unsubscribe with
       | none => []
       | some old => if u = some old then [old] else [old, old]) := by
  constructor
  · rfl
  · simp only [ContextConsumer.deliveryCallback, h]
    cases s.unsubscribe with
    | none => rfl
    | some old =>
      by_cases hu : u = some old
      · simp [hu]
      · simp [hu]

/-- Claim C3 witness: the amended statement evaluated on a one-shot consumer
holding handle 4 that receives a hand-off delivery carrying handle 9. -/
theorem claimC3_witness :
    ({ oneShotFresh with unsubscribe := some 4 } : ConsumerState).subscribe = false ∧
    (ContextConsumer.deliveryCallback { oneShotFresh with unsubscribe := some 4 }
      (some 2) (some 9)).2.1 = [4, 4] := by
  refine ⟨by decide, ?_⟩
  have h := claimC3_oneShot_unsubscribe
    { oneShotFresh with unsubscribe := some 4 } (some 2) (some 9) (by decide)
  exact h.2.trans (by decide)

/-- Claim C10: unbind of the FASTElement-behavior variant of ContextProvider
changes nothing: the state (listener flags and subscription registry alike)
is exactly preserved, and after unbind the provider handles context-request
and provider-announcement events exactly as before. -/
theorem claimC10_unbind_noop (s : FastProviderState) (ev : ContextRequestEvent)
    (aev : ContextProviderEvent) :
    ContextProviderFast.unbind s = s ∧
    (ContextProviderFast.unbind s).requestListener = s.requestListener ∧
    (ContextProviderFast.unbind s).providerListener = s.providerListener ∧
    (ContextProviderFast.unbind s).notifier = s.notifier ∧
    ContextProviderFast.handleContextRequest (ContextProviderFast.unbind s) ev
      = ContextProviderFast.handleContextRequest s ev ∧
    ContextProviderFast.handleProviderRequest (ContextProviderFast.unbind s) aev
      = ContextProviderFast.handleProviderRequest s aev := by
  exact ⟨rfl, rfl, rfl, rfl, rfl, rfl⟩

/-- The delivery callback always stores the delivered value. -/
theorem deliveryCallback_value (s : ConsumerState) (v : Option Value) (u : Option UnsubId) :
    (ContextConsumer.deliveryCallback s v u).1.value = v := rfl

/-- The delivery callback stores the delivered unsubscribe handle last. -/
theorem deliveryCallback_unsubscribe (s : ConsumerState) (v : Option Value) (u : Option UnsubId) :
    (ContextConsumer.deliveryCallback s v u).1.unsubscribe = u := rfl

/-- The delivery callback never changes the stable callback identity. -/
theorem deliveryCallback_cbId (s : ConsumerState) (v : Option Value) (u : Option UnsubId) :
    (ContextConsumer.deliveryCallback s v u).1.cbId = s.cbId := rfl

/-- The delivery callback never changes the subscribe option. -/
theorem deliveryCallback_subscribe (s : ConsumerState) (v : Option Value) (u : Option UnsubId) :
    (ContextConsumer.deliveryCallback s v u).1.subscribe = s.subscribe := rfl

/-- After any delivery the provided flag ends up set. -/
theorem deliveryCallback_provided (s : ConsumerState) (v : Option Value) (u : Option UnsubId) :
    (ContextConsumer.deliveryCallback s v u).1.provided = true := by
  have hb : ∀ b c : Bool, (if ((!b) || c) = true then true else b) = true := by decide
  simp only [ContextConsumer.deliveryCallback]
  exact hb _ _

/-- Exact condition for the user callback to fire on one delivery: the
consumer has a user callback, and it is subscribed or the provided flag does
not survive the hand-off check (no delivery yet, or a held handle differing
from the delivered one). -/
theorem deliveryCallback_flag (s : ConsumerState) (v : Option Value) (u : Option UnsubId) :
    (ContextConsumer.deliveryCallback s v u).2.2
      = (((!(s.provided && (s.unsubscribe.isNone || (u == s.unsubscribe)))) || s.subscribe)
          && s.hasUserCallback) := by
  simp only [ContextConsumer.deliveryCallback]
  cases hu : s.unsubscribe with
  | none =>
    cases s.subscribe <;> cases s.provided <;> simp
  | some old =>
    by_cases h : u = some old
    · cases s.subscribe <;> cases s.provided <;> simp [h]
    · have hne : (u == some old) = false := by
        simp [h]
      cases s.subscribe <;> cases s.provided <;> simp [h, hne]

/-- hostDisconnected changes only the unsubscribe field. -/
theorem hostDisconnected_fields (s : ConsumerState) :
    (ContextConsumer.hostDisconnected s).1.cbId = s.cbId ∧
    (ContextConsumer.hostDisconnected s).1.subscribe = s.subscribe ∧
    (ContextConsumer.hostDisconnected s).1.provided = s.provided ∧
    (ContextConsumer.hostDisconnected s).1.value = s.value ∧
    (ContextConsumer.hostDisconnected s).1.context = s.context ∧
    (ContextConsumer.hostDisconnected s).1.host = s.host := by
  cases hu : s.unsubscribe <;> simp [ContextConsumer.hostDisconnected, hu]

/-- Claim C6 counterexample: a fresh one-shot consumer (subscribe false, user
callback present) receives two deliveries from two different providers; the
user callback fires on both, although the second is not the first-ever
delivery and the consumer is not subscribed. -/
theorem claimC6_counterexample :
    (ContextConsumer.mk 4 0 40 false true).subscribe = false ∧
    (runConsumer (ContextConsumer.mk 4 0 40 false true)
      [ConsumerOp.deliver (some 10) (some 3),
       ConsumerOp.deliver (some 20) (some 4)]).callFlags = [true, true] := by
  decide

/-- Claim C6 amended: the delivery callback always stores the delivered
value, and invokes the user-supplied callback exactly when one is present
and the consumer is subscribed or the provided flag does not survive the
hand-off check of this delivery (no delivery marked provided yet, or a held
unsubscribe handle differing from the delivered one); in particular repeat
deliveries from the same provider (same handle) reach the callback only when
subscribed. -/
theorem claimC6_callback_exactly_when (s : ConsumerState) (v : Option Value)
    (u : Option UnsubId) :
    (ContextConsumer.deliveryCallback s v u).1.value = v ∧
    (ContextConsumer.deliveryCallback s v u).2.2
      = (((!(s.provided && (s.unsubscribe.isNone || (u == s.unsubscribe)))) || s.subscribe)
          && s.hasUserCallback) :=
  ⟨deliveryCallback_value s v u, deliveryCallback_flag s v u⟩

/-- Claim C8: over any lifetime trace of one consumer instance, the stable
callback identity field never changes, and every context-request event the
instance emits carries that same callback identity. -/
theorem claimC8_stable_callback_identity (s : ConsumerState) (ops : List ConsumerOp) :
    (runConsumer s ops).state.cbId = s.cbId ∧
    (runConsumer s ops).requests.all (fun ev => ev.callback == s.cbId) = true := by
  induction ops generalizing s with
  | nil => exact ⟨rfl, rfl⟩
  | cons op rest ih =>
    cases op with
    | connect =>
      have h := ih s
      refine ⟨h.1, ?_⟩
      simp only [runConsumer, List.all_cons, Bool.and_eq_true]
      exact ⟨by simp [ContextConsumer.dispatchRequest], h.2⟩
    | disconnect =>
      have hcb := (hostDisconnected_fields s).1
      have h := ih (ContextConsumer.hostDisconnected s).1
      refine ⟨h.1.trans hcb, ?_⟩
      simp only [runConsumer]
      rw [h.2.symm]
      rw [hcb]
    | deliver v u =>
      have h := ih (ContextConsumer.deliveryCallback s v u).1
      have hcb := deliveryCallback_cbId s v u
      refine ⟨h.1.trans hcb, ?_⟩
      simp only [runConsumer]
      rw [h.2.symm]
      rw [hcb]

/-- Per-delivery bound used for the one-shot consumer: the user callback can
only fire when no delivery was marked provided yet or when the delivery is a
hand-off. -/
theorem oneShot_delivery_key (s : ConsumerState) (v : Option Value) (u : Option UnsubId)
    (h : s.subscribe = false) :
    (if (ContextConsumer.deliveryCallback s v u).2.2 = true then 1 else 0)
      ≤ (if s.provided then 0 else 1)
        + (if s.unsubscribe.isSome ∧ u ≠ s.unsubscribe then 1 else 0) := by
  rw [deliveryCallback_flag, h]
  rcases hu : s.unsubscribe with _ | old
  · cases hp : s.provided <;> cases hcb : s.hasUserCallback <;> simp [hu, hp, hcb]
  · by_cases hue : u = some old
    · have hbe : (u == some old) = true := by simp [hue]
      cases hp : s.provided <;> cases hcb : s.hasUserCallback <;>
        simp [hu, hp, hcb, hbe, hue]
    · have hbe : (u == some old) = false := by simp [hue]
      cases hp : s.provided <;> cases hcb : s.hasUserCallback <;>
        simp [hu, hp, hcb, hbe, hue]

/-- Over any trace, a non-subscribing consumer fires its user callback at
most once more than the number of hand-off deliveries in the trace (and not
at all beyond hand-offs once a delivery was marked provided). -/
theorem oneShot_calls_bound (ops : List ConsumerOp) :
    ∀ s : ConsumerState, s.subscribe = false →
      ((runConsumer s ops).callFlags.count true)
        ≤ (if s.provided then 0 else 1) + (runConsumer s ops).handoffs := by
  induction ops with
  | nil =>
    intro s h
    simp [runConsumer]
  | cons op rest ih =>
    intro s h
    cases op with
    | connect =>
      simpa [runConsumer] using ih s h
    | disconnect =>
      have hf := hostDisconnected_fields s
      have h2 := ih (ContextConsumer.hostDisconnected s).1 (by rw [hf.2.1]; exact h)
      rw [hf.2.2.1] at h2
      simpa [runConsumer] using h2
    | deliver v u =>
      have hsub := deliveryCallback_subscribe s v u
      have h2 := ih (ContextConsumer.deliveryCallback s v u).1 (by rw [hsub]; exact h)
      rw [deliveryCallback_provided] at h2
      simp only [if_pos, Nat.zero_add] at h2
      have key := oneShot_delivery_key s v u h
      simp only [runConsumer, List.count_cons, beq_iff_eq]
      omega

/-- Claim C9 counterexample: a fresh non-subscribing consumer whose lifetime
contains two deliveries from different providers (a hand-off) followed by a
disconnect and a reconnect fires its user callback twice, not at most once. -/
theorem claimC9_counterexample :
    (ContextConsumer.mk 6 0 60 false true).subscribe = false ∧
    ((runConsumer (ContextConsumer.mk 6 0 60 false true)
      [ConsumerOp.deliver (some 1) (some 1), ConsumerOp.deliver (some 2) (some 2),
       ConsumerOp.disconnect, ConsumerOp.connect]).callFlags.count true) = 2 := by
  decide

/-- Claim C9 amended: the provided flag survives host disconnect unchanged
(disconnect and reconnect never reset it) and every delivery leaves it set;
it is bypassed only within a hand-off delivery, whose differing unsubscribe
handle re-enables the user callback; consequently a non-subscribing consumer
fires its user callback at most once beyond the number of hand-off
deliveries in its lifetime — so at most once over a lifetime (spanning
reconnects) that contains no hand-off. -/
theorem claimC9_provided_flag (s : ConsumerState) (ops : List ConsumerOp)
    (h : s.subscribe = false) :
    (ContextConsumer.hostDisconnected s).1.provided = s.provided ∧
    (∀ v u, (ContextConsumer.deliveryCallback s v u).1.provided = true) ∧
    ((runConsumer s ops).callFlags.count true)
      ≤ (if s.provided then 0 else 1) + (runConsumer s ops).handoffs :=
  ⟨(hostDisconnected_fields s).2.2.1,
    fun v u => deliveryCallback_provided s v u,
    oneShot_calls_bound ops s h⟩

/-- Claim C9 witness: the amended statement evaluated on a fresh
non-subscribing consumer delivered to once and then disconnected. -/
theorem claimC9_witness :
    (ContextConsumer.mk 8 0 80 false true).subscribe = false ∧
    ((runConsumer (ContextConsumer.mk 8 0 80 false true)
        [ConsumerOp.deliver (some 5) (some 2), ConsumerOp.disconnect]).callFlags.count true)
      ≤ (if (ContextConsumer.mk 8 0 80 false true).provided then 0 else 1)
        + (runConsumer (ContextConsumer.mk 8 0 80 false true)
            [ConsumerOp.deliver (some 5) (some 2), ConsumerOp.disconnect]).handoffs :=
  ⟨by decide,
    (claimC9_provided_flag (ContextConsumer.mk 8 0 80 false true)
      [ConsumerOp.deliver (some 5) (some 2), ConsumerOp.disconnect] (by decide)).2.2⟩

/-- The immediate delivery of addCallback targets the registered callback. -/
theorem addCallback_delivery_callback (n : ValueNotifier) (cb : CallbackId)
    (host : ElemId) (b : Bool) :
    ((n.addCallback cb host b).2).callback = cb := by
  simp only [ValueNotifier.addCallback]
  split
  · split <;> rfl
  · rfl

/-- The immediate delivery of addCallback carries the current value. -/
theorem addCallback_delivery_value (n : ValueNotifier) (cb : CallbackId)
    (host : ElemId) (b : Bool) :
    ((n.addCallback cb host b).2).value = n.value := by
  simp only [ValueNotifier.addCallback]
  split
  · split <;> rfl
  · rfl

/-- Registering with subscribe true leaves the callback present in the
registry (freshly appended, or already there for idempotent
re-registration). -/
theorem addCallback_subscribed_mem (n : ValueNotifier) (cb : CallbackId) (host : ElemId) :
    cb ∈ ((n.addCallback cb host true).1).subscriptions.map Subscription.callback := by
  simp only [ValueNotifier.addCallback, if_pos]
  cases hfind : n.subscriptions.find? (fun sub => sub.callback == cb) with
  | some sub =>
    have hmem := List.mem_of_find?_eq_some hfind
    have hcb : sub.callback = cb := by
      have := List.find?_some hfind
      simpa using this
    simp only []
    exact List.mem_map.mpr ⟨sub, hmem, hcb⟩
  | none =>
    simp

/-- Guard case of the request handler: a mismatched context or a request
originating at the own host leaves the provider unchanged and the event
propagating. -/
theorem onContextRequest_skip (p : ProviderState) (ev : ContextRequestEvent)
    (h : ev.context ≠ p.context ∨ ev.origin = p.host) :
    ContextProvider.onContextRequest p ev = (p, false, []) := by
  unfold ContextProvider.onContextRequest
  rw [if_pos h]

/-- Claim case of the request handler: a matching request from a foreign
element stops propagation and registers through the Value Notifier. -/
theorem onContextRequest_claim (p : ProviderState) (ev : ContextRequestEvent)
    (h1 : ev.context = p.context) (h2 : ev.origin ≠ p.host) :
    ContextProvider.onContextRequest p ev
      = ({ p with notifier := (p.notifier.addCallback ev.callback ev.origin ev.subscribe).1 },
          true, [(p.notifier.addCallback ev.callback ev.origin ev.subscribe).2]) := by
  unfold ContextProvider.onContextRequest
  rw [if_neg]
  push_neg
  exact ⟨h1, h2⟩

/-- Claim C5: on a context-request event, the provider leaves the event
propagating and its own state unchanged when the context key differs or the
originating element is its own host; otherwise it stops propagation,
registers the triple of the event with its Value Notifier (a subscribing
callback ends up present in the registry), and the callback is invoked once
immediately with the current value. -/
theorem claimC5_request_interception (p : ProviderState) (ev : ContextRequestEvent) :
    ((ev.context ≠ p.context ∨ ev.origin = p.host) →
      ContextProvider.onContextRequest p ev = (p, false, [])) ∧
    (ev.context = p.context → ev.origin ≠ p.host →
      (ContextProvider.onContextRequest p ev).2.1 = true ∧
      (ContextProvider.onContextRequest p ev).1.notifier
        = (p.notifier.addCallback ev.callback ev.origin ev.subscribe).1 ∧
      (ContextProvider.onContextRequest p ev).2.2.map Delivery.callback = [ev.callback] ∧
      (ContextProvider.onContextRequest p ev).2.2.map Delivery.value = [p.notifier.value] ∧
      (ev.subscribe = true →
        ev.callback ∈ (ContextProvider.onContextRequest p ev).1.notifier.subscriptions.map
          Subscription.callback)) := by
  constructor
  · exact onContextRequest_skip p ev
  · intro h1 h2
    rw [onContextRequest_claim p ev h1 h2]
    refine ⟨rfl, rfl, ?_, ?_, ?_⟩
    · simp [addCallback_delivery_callback]
    · simp [addCallback_delivery_value]
    · intro hs
      rw [hs]
      exact addCallback_subscribed_mem p.notifier ev.callback ev.origin

/-- Claim C5 witness: the handler applied to the scenario provider and a
matching subscribing request from element 9. -/
theorem claimC5_witness :
    (ContextProvider.onContextRequest scenarioProvider ⟨0, 33, true, 9⟩).2.1 = true :=
  ((claimC5_request_interception scenarioProvider ⟨0, 33, true, 9⟩).2 (by decide) (by decide)).1

/-- Counting events per callback in the re-parenting loop: a callback
already seen is never dispatched again, and an unseen callback is dispatched
exactly once when it occurs in the remaining entries. -/
theorem reparentLoop_count (ctx : CtxId) (cb : CallbackId) :
    ∀ (subs : List Subscription) (seen : List CallbackId),
      (((ContextProvider.reparentLoop ctx subs seen).map
          ContextRequestEvent.callback).count cb)
        = if cb ∈ seen then 0
          else if cb ∈ subs.map Subscription.callback then 1 else 0 := by
  intro subs
  induction subs with
  | nil =>
    intro seen
    by_cases h : cb ∈ seen <;> simp [ContextProvider.reparentLoop, h]
  | cons sub rest ih =>
    intro seen
    by_cases hseen : sub.callback ∈ seen
    · rw [show ContextProvider.reparentLoop ctx (sub :: rest) seen
          = ContextProvider.reparentLoop ctx rest seen from by
        simp [ContextProvider.reparentLoop, hseen]]
      rw [ih seen]
      by_cases hc : cb ∈ seen
      · simp [hc]
      · have hne : cb ≠ sub.callback := fun he => hc (he ▸ hseen)
        simp [hc, hne]
    · rw [show ContextProvider.reparentLoop ctx (sub :: rest) seen
          = ⟨ctx, sub.callback, true, sub.consumerHost⟩ ::
              ContextProvider.reparentLoop ctx rest (sub.callback :: seen) from by
        simp [ContextProvider.reparentLoop, hseen]]
      rw [List.map_cons, List.count_cons, ih (sub.callback :: seen)]
      by_cases hc : cb = sub.callback
      · subst hc
        simp [hseen]
      · have hmem : (cb ∈ sub.callback :: seen) ↔ cb ∈ seen := by
          simp [hc]
        by_cases h2 : cb ∈ seen
        · simp [hc, h2, hmem, Ne.symm hc]
        · simp [hc, h2, hmem, Ne.symm hc]

/-- Every event dispatched by the re-parenting loop subscribes, targets the
given context, and originates from the consumer host stored with a matching
subscription entry. -/
theorem reparentLoop_events (ctx : CtxId) :
    ∀ (subs : List Subscription) (seen : List CallbackId)
      (e : ContextRequestEvent), e ∈ ContextProvider.reparentLoop ctx subs seen →
      e.subscribe = true ∧ e.context = ctx ∧
      ∃ sub, sub ∈ subs ∧ sub.callback = e.callback ∧ sub.consumerHost = e.origin := by
  intro subs
  induction subs with
  | nil =>
    intro seen e he
    simp [ContextProvider.reparentLoop] at he
  | cons sub rest ih =>
    intro seen e he
    by_cases hseen : sub.callback ∈ seen
    · rw [show ContextProvider.reparentLoop ctx (sub :: rest) seen
          = ContextProvider.reparentLoop ctx rest seen from by
        simp [ContextProvider.reparentLoop, hseen]] at he
      obtain ⟨h1, h2, sub2, hm, hc, ho⟩ := ih seen e he
      exact ⟨h1, h2, sub2, List.mem_cons_of_mem sub hm, hc, ho⟩
    · rw [show ContextProvider.reparentLoop ctx (sub :: rest) seen
          = ⟨ctx, sub.callback, true, sub.consumerHost⟩ ::
              ContextProvider.reparentLoop ctx rest (sub.callback :: seen) from by
        simp [ContextProvider.reparentLoop, hseen]] at he
      rcases List.mem_cons.mp he with he1 | he2
      · subst he1
        exact ⟨rfl, rfl, sub, List.mem_cons_self sub rest, rfl, rfl⟩
      · obtain ⟨h1, h2, sub2, hm, hc, ho⟩ := ih (sub.callback :: seen) e he2
        exact ⟨h1, h2, sub2, List.mem_cons_of_mem sub hm, hc, ho⟩

/-- Claim case of the announcement handler: a matching announcement from a
foreign element runs the deduplicating re-parenting loop and stops
propagation. -/
theorem onProviderRequest_claim (p : ProviderState) (ev : ContextProviderEvent)
    (h1 : ev.context = p.context) (h2 : ev.origin ≠ p.host) :
    ContextProvider.onProviderRequest p ev
      = (true, ContextProvider.reparentLoop p.context p.notifier.subscriptions []) := by
  unfold ContextProvider.onProviderRequest
  rw [if_neg]
  push_neg
  exact ⟨h1, h2⟩

/-- Claim C1: handling a matching provider announcement from an element
other than the own host dispatches exactly one fresh subscribing
context-request event per unique callback of the subscription registry (a
callback appearing under several entries is visited once), each dispatched
from the consumer host stored with a matching entry, and stops propagation
of the announcement. -/
theorem claimC1_reparent_dedupe (p : ProviderState) (ev : ContextProviderEvent)
    (h1 : ev.context = p.context) (h2 : ev.origin ≠ p.host) :
    (ContextProvider.onProviderRequest p ev).1 = true ∧
    (∀ cb : CallbackId,
      (((ContextProvider.onProviderRequest p ev).2).map ContextRequestEvent.callback).count cb
        = if cb ∈ p.notifier.subscriptions.map Subscription.callback then 1 else 0) ∧
    (∀ e ∈ (ContextProvider.onProviderRequest p ev).2,
      e.subscribe = true ∧ e.context = p.context ∧
      ∃ sub, sub ∈ p.notifier.subscriptions ∧
        sub.callback = e.callback ∧ sub.consumerHost = e.origin) := by
  rw [onProviderRequest_claim p ev h1 h2]
  refine ⟨rfl, ?_, ?_⟩
  · intro cb
    rw [reparentLoop_count p.context cb p.notifier.subscriptions []]
    simp
  · intro e he
    exact reparentLoop_events p.context p.notifier.subscriptions [] e he

/-- Claim C1 witness: the announcement handler applied to a provider whose
registry holds callback 10 twice and callback 20 once dispatches exactly one
event for callback 10 and stops propagation. -/
theorem claimC1_witness :
    (ContextProvider.onProviderRequest dupSubsProvider dupSubsAnnounce).1 = true ∧
    (((ContextProvider.onProviderRequest dupSubsProvider dupSubsAnnounce).2).map
        ContextRequestEvent.callback).count 10
      = if 10 ∈ dupSubsProvider.notifier.subscriptions.map Subscription.callback
        then 1 else 0 :=
  ⟨(claimC1_reparent_dedupe dupSubsProvider dupSubsAnnounce (by decide) (by decide)).1,
    (claimC1_reparent_dedupe dupSubsProvider dupSubsAnnounce (by decide) (by decide)).2.1 10⟩

/-- Routing a single matching delivery into a consumer stores its value. -/
theorem applyOne_value (c : ConsumerState) (d : Delivery) (h : d.callback = c.cbId) :
    (applyDeliveriesTo c [d]).1.value = d.value := by
  simp [applyDeliveriesTo, h, ContextConsumer.deliveryCallback]

/-- Claim C2: along an innermost-first ancestor chain of providers, if every
provider below the first matching one fails to match the request (different
context, or the request originates at its own host), then that first
matching provider claims the request: the dispatch returns its host as the
claimant, the single delivery carries the callback of the request and the
value of that provider (so a consumer routing this delivery stores exactly
the value of the nearest enclosing provider), and every other provider of
the chain, nearer or more distant, is left unchanged. -/
theorem claimC2_nearest_provider (pre post : List ProviderState) (p : ProviderState)
    (ev : ContextRequestEvent)
    (hpre : ∀ q ∈ pre, q.context = ev.context → q.host = ev.origin)
    (hctx : ev.context = p.context) (hhost : ev.origin ≠ p.host) :
    ∃ u : Option UnsubId,
      dispatchContextRequest (pre ++ p :: post) ev
        = (pre ++ ({ p with
              notifier := (p.notifier.addCallback ev.callback ev.origin ev.subscribe).1 }
            :: post),
            some (p.host, [⟨ev.callback, p.notifier.value, u⟩])) ∧
      ∀ c : ConsumerState, c.cbId = ev.callback →
        (applyDeliveriesTo c [⟨ev.callback, p.notifier.value, u⟩]).1.value
          = p.notifier.value := by
  revert hpre
  induction pre with
  | nil =>
    intro hpre
    refine ⟨(p.notifier.addCallback ev.callback ev.origin ev.subscribe).2.unsub, ?_, ?_⟩
    · have hc := onContextRequest_claim p ev hctx hhost
      have h1 := addCallback_delivery_callback p.notifier ev.callback ev.origin ev.subscribe
      have h2 := addCallback_delivery_value p.notifier ev.callback ev.origin ev.subscribe
      have he : (p.notifier.addCallback ev.callback ev.origin ev.subscribe).2
          = ⟨(p.notifier.addCallback ev.callback ev.origin ev.subscribe).2.callback,
             (p.notifier.addCallback ev.callback ev.origin ev.subscribe).2.value,
             (p.notifier.addCallback ev.callback ev.origin ev.subscribe).2.unsub⟩ := rfl
      rw [h1, h2] at he
      show dispatchContextRequest (p :: post) ev = _
      simp only [dispatchContextRequest, hc]
      rw [he]
      simp
    · intro c hcb
      exact applyOne_value c _ hcb.symm
  | cons q pre ih =>
    intro hpre
    have hq : ContextProvider.onContextRequest q ev = (q, false, []) := by
      apply onContextRequest_skip
      by_cases hqc : q.context = ev.context
      · exact Or.inr (hpre q (List.mem_cons_self q pre) hqc).symm
      · exact Or.inl (fun he => hqc he.symm)
    obtain ⟨u, h1, h2⟩ := ih (fun r hr => hpre r (List.mem_cons_of_mem q hr))
    refine ⟨u, ?_, h2⟩
    show dispatchContextRequest (q :: (pre ++ p :: post)) ev = _
    simp only [dispatchContextRequest, hq]
    rw [h1]
    simp

/-- Claim C2 witness: a request from element 13 dispatched through the chain
holding the near provider (value 100) before the far provider (value 200) is
claimed by the near provider. -/
theorem claimC2_witness :
    (dispatchContextRequest [nearProvider, farProvider] nestedRequest).2.map Prod.fst
      = some nearProvider.host ∧
    ((dispatchContextRequest [nearProvider, farProvider] nestedRequest).2.map
        (fun c => c.2.map Delivery.value))
      = some [nearProvider.notifier.value] := by
  obtain ⟨u, h1, h2⟩ :=
    claimC2_nearest_provider [] [farProvider] nearProvider nestedRequest
      (by decide) (by decide) (by decide)
  have h3 := congrArg Prod.snd h1
  simp only at h3
  rw [show ([nearProvider, farProvider] : List ProviderState)
      = [] ++ nearProvider :: [farProvider] from rfl, h3]
  exact ⟨rfl, rfl⟩

/-- If the chain contains a matching provider, the dispatched request is
claimed by some provider and produces exactly one delivery to the callback
of the request. -/
theorem dispatch_claims_of_matching (ev : ContextRequestEvent) :
    ∀ provs : List ProviderState,
      (∃ p, p ∈ provs ∧ p.context = ev.context ∧ p.host ≠ ev.origin) →
      ∃ host ds, (dispatchContextRequest provs ev).2 = some (host, ds) ∧
        ds.map Delivery.callback = [ev.callback] := by
  intro provs
  induction provs with
  | nil =>
    intro h
    obtain ⟨p, hp, _⟩ := h
    exact absurd hp (List.not_mem_nil p)
  | cons q rest ih =>
    intro h
    by_cases hq : ev.context = q.context ∧ ev.origin ≠ q.host
    · have hc := onContextRequest_claim q ev hq.1 hq.2
      refine ⟨q.host, [(q.notifier.addCallback ev.callback ev.origin ev.subscribe).2], ?_, ?_⟩
      · simp [dispatchContextRequest, hc]
      · simp [addCallback_delivery_callback]
    · have hskip : ContextProvider.onContextRequest q ev = (q, false, []) := by
        apply onContextRequest_skip
        by_cases h1 : ev.context = q.context
        · rcases not_and_or.mp hq with h2 | h2
          · exact absurd h1 h2
          · exact Or.inr (not_not.mp h2)
        · exact Or.inl h1
      obtain ⟨p, hp, hp1, hp2⟩ := h
      have hpr : p ∈ rest := by
        rcases List.mem_cons.mp hp with he | hr
        · exfalso
          apply hq
          rw [← he]
          exact ⟨hp1.symm, fun h2 => hp2 h2.symm⟩
        · exact hr
      obtain ⟨host, ds, h1, h2⟩ := ih ⟨p, hpr, hp1, hp2⟩
      refine ⟨host, ds, ?_, h2⟩
      simp only [dispatchContextRequest, hskip]
      exact h1

/-- Claim C7: a detach and re-attach of a consumer is a clean round trip:
host disconnect invokes the held unsubscribe handle (exactly the stored one,
none if none was held) and clears it; host reconnect dispatches a fresh
request event identical to the one of a fresh instance with the same
options, and when the chain contains a matching provider that request is
claimed and yields exactly one fresh delivery to the consumer callback. -/
theorem claimC7_roundtrip (s : ConsumerState) (provs : List ProviderState)
    (h : ∃ p, p ∈ provs ∧ p.context = s.context ∧ p.host ≠ s.host) :
    (ContextConsumer.hostDisconnected s).1.unsubscribe = none ∧
    (ContextConsumer.hostDisconnected s).2 = s.unsubscribe.toList ∧
    ContextConsumer.dispatchRequest (ContextConsumer.hostDisconnected s).1
      = ⟨s.context, s.cbId, s.subscribe, s.host⟩ ∧
    ∃ host ds,
      (dispatchContextRequest provs
        (ContextConsumer.dispatchRequest (ContextConsumer.hostDisconnected s).1)).2
        = some (host, ds) ∧ ds.map Delivery.callback = [s.cbId] := by
  have hreq : ContextConsumer.dispatchRequest (ContextConsumer.hostDisconnected s).1
      = ⟨s.context, s.cbId, s.subscribe, s.host⟩ := by
    cases hu : s.unsubscribe <;>
      simp [ContextConsumer.hostDisconnected, ContextConsumer.dispatchRequest, hu]
  refine ⟨?_, ?_, hreq, ?_⟩
  · cases hu : s.unsubscribe <;> simp [ContextConsumer.hostDisconnected, hu]
  · cases hu : s.unsubscribe <;> simp [ContextConsumer.hostDisconnected, hu]
  · rw [hreq]
    exact dispatch_claims_of_matching ⟨s.context, s.cbId, s.subscribe, s.host⟩ provs h

/-- Claim C7 witness: the round trip of a subscribed consumer holding handle
7, re-attached under the scenario provider. -/
theorem claimC7_witness :
    (ContextConsumer.hostDisconnected roundTripConsumer).1.unsubscribe = none ∧
    (ContextConsumer.hostDisconnected roundTripConsumer).2
      = roundTripConsumer.unsubscribe.toList :=
  ⟨(claimC7_roundtrip roundTripConsumer [scenarioProvider]
      ⟨scenarioProvider, by decide, by decide, by decide⟩).1,
    (claimC7_roundtrip roundTripConsumer [scenarioProvider]
      ⟨scenarioProvider, by decide, by decide, by decide⟩).2.1⟩
